import Mathlib

/-!
# oidc-proxy: the authentication gateway of `proxy_handler.go`

A shallow embedding of `OIDCProxyHandler` and its sub-handlers.

* Go strings are byte sequences; a Lean `String` stands for one, each character
  standing for one byte.  Text algorithms are written over `List Char` so that
  they evaluate by reduction.
* A handler run is the list of the calls it makes on the response writer and on
  its collaborators (cookie codec, OAuth2/OIDC client, downstream handler), in
  program order.  `slog` calls are not recorded.
* The cookie codec (`cookie.CookieHandler`), the OAuth2/OIDC client and
  `crypto/rand` are parameters of a run, collected in `Env`.
-/

namespace OidcProxy

/-! ## Data model -/

/-- Type `url.Values` (`map[string][]string`) as the list of its `(key, value)`
entries, values of one key in their slice order. -/
abbrev Values := List (String × String)

/-- Method `Values.Get`: the first value of `key`, or `""`. -/
def Values.Get : Values → String → String
  | [], _ => ""
  | (k, v) :: rest, key => if k = key then v else Values.Get rest key

structure Endpoints where
  AuthorizationEndpoint : String
  TokenEndpoint : String
  IntrospectionEndpoint : String
  UserinfoEndpoint : String
  EndSessionEndpoint : String
  RevocationEndpoint : String
deriving DecidableEq, Repr

/-- Method `Endpoints.Merge`: sets each field of `e` to the one of `e2` if it is
not set; the result is the receiver after the call. -/
def Endpoints.Merge (e e2 : Endpoints) : Endpoints :=
  let e := if e.AuthorizationEndpoint = "" then
    { e with AuthorizationEndpoint := e2.AuthorizationEndpoint } else e
  let e := if e.TokenEndpoint = "" then
    { e with TokenEndpoint := e2.TokenEndpoint } else e
  let e := if e.IntrospectionEndpoint = "" then
    { e with IntrospectionEndpoint := e2.IntrospectionEndpoint } else e
  let e := if e.UserinfoEndpoint = "" then
    { e with UserinfoEndpoint := e2.UserinfoEndpoint } else e
  let e := if e.EndSessionEndpoint = "" then
    { e with EndSessionEndpoint := e2.EndSessionEndpoint } else e
  let e := if e.RevocationEndpoint = "" then
    { e with RevocationEndpoint := e2.RevocationEndpoint } else e
  e

/-- Type `Provider`; the embedded `Endpoints` is the parent structure. -/
structure Provider extends Endpoints where
  Name : String
  IssuerURL : String
  ClientID : String
  ClientSecret : String
  Scopes : List String
  AuthorizationParameter : Values
  TokenParameters : Values
deriving DecidableEq, Repr

/-- Type `oauth2.Config` with its `Endpoint` fields inlined. -/
structure OAuth2Config where
  ClientID : String
  ClientSecret : String
  AuthURL : String
  TokenURL : String
  RedirectURL : String
  Scopes : List String
deriving DecidableEq, Repr

/-- Registry entry.  `oidcProvider` is `none` for the nil pointer of a pure
OAuth2 provider and otherwise holds the issuer the `oidc.Provider` was
discovered from. -/
structure provider where
  config : Provider
  oidcProvider : Option String
  oauth2Config : OAuth2Config
deriving DecidableEq, Repr

/-- Type `oauth2.Token`.  `Expiry` is `none` for the zero time and otherwise a
point in time in seconds; `ExtraIDToken` is the string
`Extra("id_token").(string)` yields, `none` when that assertion fails. -/
structure Token where
  AccessToken : String
  TokenType : String
  RefreshToken : String
  Expiry : Option Int
  ExtraIDToken : Option String
deriving DecidableEq, Repr

/-- Constant `expiryDelta` of package oauth2: ten seconds. -/
def expiryDelta : Int := 10

/-- Method `Token.expired` at current time `now`. -/
def Token.expired (t : Token) (now : Int) : Bool :=
  match t.Expiry with
  | none => false
  | some e => decide (e - expiryDelta < now)

/-- Method `(*Token).Valid` at current time `now`; `none` is the nil pointer. -/
def Token.Valid (t : Option Token) (now : Int) : Bool :=
  match t with
  | none => false
  | some t => t.AccessToken != "" && !t.expired now

structure Session where
  Provider : String
  OAuth2Tokens : Option Token
  IDToken : String
deriving DecidableEq, Repr

structure loginState where
  State : String
  URI : String
  Provider : String
deriving DecidableEq, Repr

/-! ## Byte-string helpers (Go standard library) -/

/-- Function `strings.Cut` for a one-byte separator: the text before the first
`sep`, the text after it, and whether `sep` occurs. -/
def cut (sep : Char) : List Char → List Char × List Char × Bool
  | [] => ([], [], false)
  | c :: cs =>
    if c = sep then ([], cs, true)
    else
      let r := cut sep cs
      (c :: r.1, r.2.1, r.2.2)

/-- All pieces of `s` between occurrences of `sep`, in order. -/
def splitOn (sep : Char) : List Char → List (List Char)
  | [] => [[]]
  | c :: cs =>
    if c = sep then [] :: splitOn sep cs
    else
      match splitOn sep cs with
      | [] => [[c]]
      | seg :: segs => (c :: seg) :: segs

/-- Function `ishex` of net/url. -/
def ishex (c : Char) : Bool :=
  ('0' ≤ c && c ≤ '9') || ('a' ≤ c && c ≤ 'f') || ('A' ≤ c && c ≤ 'F')

/-- Function `unhex` of net/url. -/
def unhex (c : Char) : Nat :=
  if '0' ≤ c && c ≤ '9' then c.toNat - '0'.toNat
  else if 'a' ≤ c && c ≤ 'f' then c.toNat - 'a'.toNat + 10
  else if 'A' ≤ c && c ≤ 'F' then c.toNat - 'A'.toNat + 10
  else 0

/-- Function `unescape` of net/url in the modes `encodeQueryComponent`
(`plusIsSpace = true`) and `encodePath` (`plusIsSpace = false`); `none` is an
`EscapeError`. -/
def unescape (plusIsSpace : Bool) : List Char → Option (List Char)
  | [] => some []
  | c :: rest =>
    if c = '%' then
      match rest with
      | a :: b :: rest2 =>
        if ishex a && ishex b then
          (unescape plusIsSpace rest2).map (fun t => Char.ofNat (unhex a * 16 + unhex b) :: t)
        else none
      | _ => none
    else if c = '+' && plusIsSpace then
      (unescape plusIsSpace rest).map (fun t => ' ' :: t)
    else
      (unescape plusIsSpace rest).map (fun t => c :: t)

/-- One iteration of the loop of `parseQuery` of net/url on the piece `seg`
between two `&`: the entry it appends, `none` when the piece is skipped. -/
def parseQueryPiece (seg : List Char) : Option (String × String) :=
  if seg.contains ';' then none
  else if seg = [] then none
  else
    let kv := cut '=' seg
    match unescape true kv.1 with
    | none => none
    | some key =>
      match unescape true kv.2.1 with
      | none => none
      | some value => some (String.mk key, String.mk value)

/-- Function `url.ParseQuery`, its error dropped: the entries in the order
they are appended. -/
def ParseQuery (query : String) : Values :=
  (splitOn '&' query.toList).filterMap parseQueryPiece

/-- Upper-case hexadecimal digit of a number below sixteen. -/
def hexDigit (n : Nat) : Char :=
  match n with
  | 0 => '0' | 1 => '1' | 2 => '2' | 3 => '3' | 4 => '4' | 5 => '5' | 6 => '6' | 7 => '7'
  | 8 => '8' | 9 => '9' | 10 => 'A' | 11 => 'B' | 12 => 'C' | 13 => 'D' | 14 => 'E' | _ => 'F'

/-- Function `shouldEscape` of net/url in mode `encodeQueryComponent`. -/
def shouldEscapeQuery (c : Char) : Bool :=
  !(('a' ≤ c && c ≤ 'z') || ('A' ≤ c && c ≤ 'Z') || ('0' ≤ c && c ≤ '9')
    || c = '-' || c = '_' || c = '.' || c = '~')

/-- Function `url.QueryEscape` on a list of bytes. -/
def queryEscapeChars : List Char → List Char
  | [] => []
  | c :: rest =>
    if c = ' ' then '+' :: queryEscapeChars rest
    else if shouldEscapeQuery c then
      '%' :: hexDigit (c.toNat / 16) :: hexDigit (c.toNat % 16) :: queryEscapeChars rest
    else c :: queryEscapeChars rest

/-- Function `url.QueryEscape`. -/
def QueryEscape (s : String) : String := String.mk (queryEscapeChars s.toList)

/-- Function `path.Split`: the text up to and including the last slash, and
the text after it. -/
def pathSplit (p : List Char) : List Char × List Char :=
  match (splitOn '/' p).reverse with
  | [] => ([], p)
  | last :: _ => (p.take (p.length - last.length), last)

/-- The element loop of `path.Clean`: `stack` holds the elements written so
far, last one first.  Empty and `.` elements are dropped, `..` removes the last
real element, is dropped at the root and is kept in a relative path. -/
def cleanElems (rooted : Bool) : List (List Char) → List (List Char) → List (List Char)
  | stack, [] => stack
  | stack, seg :: segs =>
    if seg = [] || seg = ['.'] then cleanElems rooted stack segs
    else if seg = ['.', '.'] then
      match stack with
      | top :: below =>
        if top = ['.', '.'] then cleanElems rooted (seg :: stack) segs
        else cleanElems rooted below segs
      | [] => if rooted then cleanElems rooted [] segs else cleanElems rooted [seg] segs
    else cleanElems rooted (seg :: stack) segs

/-- Function `path.Clean`. -/
def pathClean (p : List Char) : List Char :=
  match p with
  | [] => ['.']
  | c :: _ =>
    let rooted := decide (c = '/')
    let elems := (cleanElems rooted [] (splitOn '/' p)).reverse
    let body := ['/'].intercalate elems
    if rooted then '/' :: body
    else if body = [] then ['.'] else body

/-- The target `http.Redirect` puts in the `Location` header for a `url` that
`url.Parse` accepts with empty scheme and host, on a request whose `URL.Path`
is `oldpath`: it is made absolute against the directory of `oldpath` and its
path part is cleaned, a trailing slash preserved.  (The header value is this
text passed through `hexEscapeNonASCII`, the identity on ASCII.) -/
def redirectLocation (oldpath url : String) : String :=
  let oldpath := if oldpath = "" then "/" else oldpath
  let u := url.toList
  let u := match u with
    | '/' :: _ => u
    | _ => (pathSplit oldpath.toList).1 ++ u
  let parts := cut '?' u
  let query := if parts.2.2 then '?' :: parts.2.1 else []
  let p := parts.1
  let trailing := p.getLast? = some '/'
  let cleaned := pathClean p
  let cleaned := if trailing && cleaned.getLast? != some '/' then cleaned ++ ['/'] else cleaned
  String.mk (cleaned ++ query)

/-- Path and raw query of a request target in origin form, as
`url.ParseRequestURI` yields them: the target is cut at the first `?` and the
path is unescaped; `none` when the path has an invalid escape. -/
def parseRequestTarget (target : String) : Option (String × String) :=
  let parts := cut '?' target.toList
  (unescape false parts.1).map (fun p => (String.mk p, String.mk parts.2.1))

/-! ## Requests -/

/-- Type `url.URL`, the fields the handlers read.  `escapedPath` is the value
`u.EscapedPath()` returns, which net/url derives from `Path` and `RawPath`. -/
structure URL where
  Scheme : String
  Opaque : String
  Path : String
  escapedPath : String
  ForceQuery : Bool
  RawQuery : String
deriving DecidableEq, Repr

/-- Method `URL.RequestURI`: the encoded path (or opaque part) and query. -/
def URL.RequestURI (u : URL) : String :=
  let result :=
    if u.Opaque = "" then
      (if u.escapedPath = "" then "/" else u.escapedPath)
    else if (u.Opaque.toList.take 2) = ['/', '/'] then u.Scheme ++ ":" ++ u.Opaque
    else u.Opaque
  if u.ForceQuery || u.RawQuery != "" then result ++ "?" ++ u.RawQuery else result

/-- Method `URL.Query`: the parsed `RawQuery`, malformed pairs dropped. -/
def URL.Query (u : URL) : Values := ParseQuery u.RawQuery

/-- Type `http.Request`.  `Form` is `none` (nil) until the form has been
parsed; `bodyValues` and `multipartValues` are the entries
`ParseMultipartForm` reads from a url-encoded and from a multipart body. -/
structure Request where
  Method : String
  URL : URL
  Cookies : List (String × String)
  Form : Option Values
  bodyValues : Values
  multipartValues : Values
deriving DecidableEq, Repr

/-- Method `Request.FormValue`: parses the form when `Form` is nil (body
entries, then the query entries, then multipart entries) and returns the first
value of `key`. -/
def Request.FormValue (r : Request) (key : String) : String :=
  match r.Form with
  | some f => Values.Get f key
  | none => Values.Get (r.bodyValues ++ r.URL.Query ++ r.multipartValues) key

/-- Expression `r.Form.Get(key)`: no form is parsed; on the nil map the result
is `""`. -/
def Request.FormGet (r : Request) (key : String) : String :=
  match r.Form with
  | some f => Values.Get f key
  | none => ""

/-! ## Handler state, collaborators and recorded calls -/

structure OIDCProxyConfig where
  CallbackURL : String
  LoginPath : String
  LogoutPath : String
  DebugPath : String
deriving DecidableEq, Repr

/-- Type `OIDCProxyHandler`.  `providers` lists the entries of the map, keys
distinct, in the order a `range` over it visits them.  The cookie codec and the
downstream handler are not fields: the codec is part of `Env`, a call of `next`
is recorded as `Effect.next`. -/
structure OIDCProxyHandler where
  providers : List (String × provider)
  config : OIDCProxyConfig
  loginPath : String
  callbackPath : String
  debugPath : String
  sessionCookieName : String
deriving DecidableEq, Repr

/-- Body of the provider loop of `NewOIDCProxyHandler` for one configured
provider: the registry entry built, or the error returned.  `oidcNewProvider`
is the error of `oidc.NewProvider` for an issuer (`none` for nil) and `claims`
is what `oidcProvider.Claims` decodes into a zero `Endpoints`. -/
def newProvider (callbackURL : String) (oidcNewProvider : String → Option String)
    (claims : String → Except String Endpoints) (providerConfig : Provider) :
    Except String provider :=
  if providerConfig.ClientID = "" then
    Except.error "client id missing in configuration"
  else
    let oauth2Config : OAuth2Config :=
      { ClientID := providerConfig.ClientID, ClientSecret := providerConfig.ClientSecret,
        AuthURL := "", TokenURL := "", RedirectURL := callbackURL,
        Scopes := providerConfig.Scopes }
    let discovered : Except String (Provider × Option String) :=
      if providerConfig.IssuerURL != "" then
        match oidcNewProvider providerConfig.IssuerURL with
        | some err => Except.error err
        | none =>
          match claims providerConfig.IssuerURL with
          | Except.error err => Except.error err
          | Except.ok endpoints =>
            Except.ok ({ providerConfig with
                toEndpoints := providerConfig.toEndpoints.Merge endpoints },
              some providerConfig.IssuerURL)
      else Except.ok (providerConfig, none)
    match discovered with
    | Except.error err => Except.error err
    | Except.ok (config, oidcProvider) =>
      if config.AuthorizationEndpoint = "" then
        Except.error "authorization endpoint not set"
      else if config.TokenEndpoint = "" then
        Except.error "token endpoint not set"
      else
        Except.ok
          { config := config, oidcProvider := oidcProvider,
            oauth2Config := { oauth2Config with
              AuthURL := config.AuthorizationEndpoint, TokenURL := config.TokenEndpoint } }

/-- Map index expression `op.providers[name]`. -/
def lookupProvider : List (String × provider) → String → Option provider
  | [], _ => none
  | (k, p) :: rest, name => if k = name then some p else lookupProvider rest name

/-- What `cookieHandler.Get(r, name, out)` reports: its two results and the
content of `out` after the call. -/
structure GetResult (α : Type) where
  ok : Bool
  err : Option String
  value : α

/-- The collaborators of one request.  `now` is the clock `Token.Valid` reads.
The `cookie*` fields are `cookie.CookieHandler` (`Set` yields its error, `none`
for nil).  `randString n` is the result of `randString(n)`, which draws from
`crypto/rand`; `authCodeURL` is `oauth2.Config.AuthCodeURL` with the options
given as entries.  `tokenSource n cfg t` is the `n`-th call (from 0) of
`cfg.TokenSource(ctx, t).Token()` in the request, `exchange` is
`cfg.Exchange`, `verify p raw` is `Verifier(...).Verify` for provider `p`
(its error), `httpNewRequest` and `httpDo` are the revocation request
(`httpDo` yields status code and the body read, or the transport error). -/
structure Env where
  now : Int
  cookieGetSession : Request → String → GetResult Session
  cookieGetState : Request → String → GetResult loginState
  cookieSetSession : Request → String → Session → Option String
  cookieSetState : Request → String → loginState → Option String
  randString : Nat → Except String String
  authCodeURL : OAuth2Config → String → Values → String
  exchange : OAuth2Config → String → Values → Except String Token
  tokenSource : Nat → OAuth2Config → Token → Except String Token
  verify : provider → String → Option String
  httpNewRequest : String → String → Option String
  httpDo : String → Values → Except String (Nat × String)

/-- A call made while serving a request, on the response writer or on a
collaborator. -/
inductive Effect where
  /-- Call `w.Header().Add(key, value)`. -/
  | headerAdd (key value : String)
  /-- Call `fmt.Fprintln` or `fmt.Fprintf` on the writer, with the text written. -/
  | write (text : String)
  /-- Call `http.Error(w, msg, code)`. -/
  | httpError (msg : String) (code : Nat)
  /-- Call `http.Redirect(w, r, url, code)`. -/
  | httpRedirect (url : String) (code : Nat)
  /-- Call `cookieHandler.Set(w, r, name, session)`. -/
  | cookieSetSession (name : String) (s : Session)
  /-- Call `cookieHandler.Set(w, r, name, loginState)`. -/
  | cookieSetState (name : String) (ls : loginState)
  /-- Call `cookieHandler.Delete(w, name)`. -/
  | cookieDelete (name : String)
  /-- Entry into `op.refreshToken(ctx, s)`. -/
  | refreshToken (s : Session)
  /-- Token renewal request `TokenSource(ctx, token).Token()`. -/
  | tokenSource (cfg : OAuth2Config) (token : Token)
  /-- Code exchange `oauth2Config.Exchange(ctx, code, opts...)`. -/
  | exchange (cfg : OAuth2Config) (code : String) (opts : Values)
  /-- Identity token check `Verifier(...).Verify(ctx, rawIDToken)`. -/
  | verify (clientID rawIDToken : String)
  /-- Revocation request `http.DefaultClient.Do(req)`: target and form body. -/
  | httpDo (url : String) (body : Values)
  /-- Call `infoHandler(w, r)`, with the session in the context of `r`. -/
  | infoHandler (session : Option Session)
  /-- Call `op.next.ServeHTTP(w, r)`, with the session in the context of `r`. -/
  | next (session : Option Session)
  /-- A run-time panic. -/
  | goPanic (msg : String)
deriving DecidableEq, Repr

/-- Function `urlValuesIntoOpts`: one `SetAuthURLParam(parameter, value)` per
entry, given as the entry. -/
def urlValuesIntoOpts (urlValues : Values) : Values :=
  urlValues.map (fun kv => (kv.1, kv.2))

/-! ## Handlers -/

/-- Method `OIDCProxyHandler.getSession`. -/
def getSession (op : OIDCProxyHandler) (env : Env) (r : Request) : Option Session :=
  let res := env.cookieGetSession r op.sessionCookieName
  if !res.ok then none
  else if res.err.isSome then none
  else some res.value

/-- Method `OIDCProxyHandler.RedirectToLogin`. -/
def RedirectToLogin (op : OIDCProxyHandler) (r : Request) : List Effect :=
  if !(r.Method = "GET" || r.Method = "HEAD") then
    [Effect.httpError "Unauthorized" 401]
  else
    let originURI := r.URL.RequestURI
    [Effect.httpRedirect (op.loginPath ++ "?origin_uri=" ++ originURI) 303]

/-- Method `OIDCProxyHandler.refreshToken`, as the `n`-th renewal of the
request: the calls made and the returned session or error. -/
def refreshToken (op : OIDCProxyHandler) (env : Env) (n : Nat) (s : Session) :
    List Effect × Except String Session :=
  match s.OAuth2Tokens with
  | none => ([Effect.refreshToken s],
      Except.error "token expired or missing and no refresh token available")
  | some tokens =>
    if tokens.RefreshToken = "" then
      ([Effect.refreshToken s],
        Except.error "token expired or missing and no refresh token available")
    else
      match lookupProvider op.providers s.Provider with
      | none => ([Effect.refreshToken s], Except.error ("unknown provider " ++ s.Provider))
      | some provider =>
        let token : Token :=
          { AccessToken := "", TokenType := "", RefreshToken := tokens.RefreshToken,
            Expiry := none, ExtraIDToken := none }
        match env.tokenSource n provider.oauth2Config token with
        | Except.error err =>
          ([Effect.refreshToken s, Effect.tokenSource provider.oauth2Config token],
            Except.error ("token refresh failed: " ++ err))
        | Except.ok newToken =>
          let newIDToken :=
            match newToken.ExtraIDToken with
            | some t => t
            | none => s.IDToken
          ([Effect.refreshToken s, Effect.tokenSource provider.oauth2Config token],
            Except.ok { Provider := s.Provider, OAuth2Tokens := some newToken,
                        IDToken := newIDToken })

/-- The `href` argument of the `Fprintf` in `LoginHandler`: the link written
for the provider registered as `name`. -/
def providerLink (r : Request) (name : String) : String :=
  r.URL.RequestURI ++ "&provider=" ++ name

/-- Method `OIDCProxyHandler.LoginHandler`. -/
def LoginHandler (op : OIDCProxyHandler) (env : Env) (r : Request) : List Effect :=
  let providerName := Values.Get r.URL.Query "provider"
  if providerName = "" then
    [Effect.headerAdd "Content-Type" "text/html",
     Effect.headerAdd "Cache-Control" "no-cache",
     Effect.write "<h1>select login provider</h1>\n"]
    ++ op.providers.map (fun entry =>
        let name := entry.1
        let fullName := if entry.2.config.Name = "" then name else entry.2.config.Name
        Effect.write ("<div><a href=\"" ++ providerLink r name
          ++ "\">" ++ fullName ++ "</a></div>"))
  else
    match lookupProvider op.providers providerName with
    | none => [Effect.httpError "unknown provider" 400]
    | some provider =>
      match env.randString 20 with
      | Except.error err => [Effect.goPanic err]
      | Except.ok state =>
        let loginState : loginState :=
          { Provider := providerName, State := state, URI := r.FormGet "origin_uri" }
        Effect.cookieSetState "state" loginState ::
          match env.cookieSetState r "state" loginState with
          | some _ => [Effect.httpError "Internal Server Error" 500]
          | none =>
            let redirectURL := env.authCodeURL provider.oauth2Config loginState.State
              (urlValuesIntoOpts provider.config.AuthorizationParameter)
            [Effect.httpRedirect redirectURL 303]

/-- Method `OIDCProxyHandler.revokeToken`: the calls made and the outcome,
`some err` for a return with error `err` (`none` for nil) and `none` for a
panic.  The form body is given by its entries in the order they are added. -/
def revokeToken (env : Env) (provider : provider) (s : Session) :
    List Effect × Option (Option String) :=
  if provider.config.RevocationEndpoint = "" then
    ([], some (some "provider has no revocation endpoint set"))
  else
    match s.OAuth2Tokens with
    | none => ([Effect.goPanic "runtime error: invalid memory address or nil pointer dereference"], none)
    | some tokens =>
      let token := if tokens.RefreshToken = "" then tokens.AccessToken else tokens.RefreshToken
      let body : Values :=
        [("token", token), ("client_id", provider.config.ClientID),
         ("client_secret", provider.config.ClientSecret)]
      match env.httpNewRequest "POST" provider.config.RevocationEndpoint with
      | some err => ([], some (some ("revocation failed: " ++ err)))
      | none =>
        match env.httpDo provider.config.RevocationEndpoint body with
        | Except.error err =>
          ([Effect.httpDo provider.config.RevocationEndpoint body],
            some (some ("revocation failed: " ++ err)))
        | Except.ok resp =>
          if resp.1 < 200 || resp.1 > 399 then
            ([Effect.httpDo provider.config.RevocationEndpoint body],
              some (some ("revocation failed: returned status code " ++ toString resp.1
                ++ " with body \x27" ++ resp.2 ++ "\x27")))
          else ([Effect.httpDo provider.config.RevocationEndpoint body], some none)

/-- Method `OIDCProxyHandler.rpInitiatedLogout`; `q.Encode()` of the at most
one entry is written out. -/
def rpInitiatedLogout (provider : provider) (s : Session) : List Effect :=
  let q := if s.IDToken != "" then "id_token_hint=" ++ QueryEscape s.IDToken else ""
  [Effect.httpRedirect (provider.config.EndSessionEndpoint ++ "?" ++ q) 303]

/-- Method `OIDCProxyHandler.LogoutHandler`. -/
def LogoutHandler (op : OIDCProxyHandler) (env : Env) (r : Request) : List Effect :=
  Effect.cookieDelete op.sessionCookieName ::
    match getSession op env r with
    | none => [Effect.write "logged out\n"]
    | some s =>
      match lookupProvider op.providers s.Provider with
      | none => [Effect.write "logged out\n"]
      | some provider =>
        let revocation : List Effect × Option (Option String) :=
          if provider.config.RevocationEndpoint != "" then revokeToken env provider s
          else ([], some none)
        match revocation.2 with
        | none => revocation.1
        | some _ =>
          revocation.1 ++
            (if provider.config.EndSessionEndpoint != "" then rpInitiatedLogout provider s
             else [Effect.write "logged out\n"])

/-- Lines 532 to 545 of `CallbackHandler`: store the session and redirect.
The local `originURI` is computed and the redirect is given
`loginState.URI`. -/
def callbackFinish (op : OIDCProxyHandler) (env : Env) (r : Request)
    (loginState : loginState) (session : Session) : List Effect :=
  Effect.cookieSetSession op.sessionCookieName session ::
    match env.cookieSetSession r op.sessionCookieName session with
    | some err => [Effect.httpError err 500]
    | none =>
      let originURI := loginState.URI
      let _originURI := if originURI = "" then "/" else originURI
      [Effect.httpRedirect loginState.URI 303]

/-- Lines 482 to 530 of `CallbackHandler`, after the state cookie has been
read and deleted: state comparison, provider error, provider lookup, code
exchange and identity-token check. -/
def callbackAfterDelete (op : OIDCProxyHandler) (env : Env) (r : Request)
    (loginState : loginState) : List Effect :=
  let state := r.FormValue "state"
  if state != loginState.State then
    [Effect.httpError "state missmatch" 500]
  else
    let params := r.URL.Query
    if Values.Get params "error" != "" then
      [Effect.httpError ("error=" ++ Values.Get params "error" ++ ", error_description="
        ++ Values.Get params "error_description") 500]
    else
      match lookupProvider op.providers loginState.Provider with
      | none => [Effect.httpError "invalid state unknown provider" 400]
      | some provider =>
        let code := Values.Get r.URL.Query "code"
        let opts := urlValuesIntoOpts provider.config.TokenParameters
        Effect.exchange provider.oauth2Config code opts ::
          match env.exchange provider.oauth2Config code opts with
          | Except.error err => [Effect.httpError ("token exchange failed: " ++ err) 500]
          | Except.ok oauth2Token =>
            let session : Session :=
              { Provider := loginState.Provider, OAuth2Tokens := some oauth2Token, IDToken := "" }
            match provider.oidcProvider with
            | none => callbackFinish op env r loginState session
            | some _ =>
              match oauth2Token.ExtraIDToken with
              | none => [Effect.httpError "missing id_token" 500]
              | some rawIDToken =>
                Effect.verify provider.config.ClientID rawIDToken ::
                  match env.verify provider rawIDToken with
                  | some err => [Effect.httpError ("failed to validate id_token: " ++ err) 500]
                  | none =>
                    callbackFinish op env r loginState { session with IDToken := rawIDToken }

/-- Method `OIDCProxyHandler.CallbackHandler`. -/
def CallbackHandler (op : OIDCProxyHandler) (env : Env) (r : Request) : List Effect :=
  let res := env.cookieGetState r "state"
  if !res.ok then
    [Effect.httpError "state cookie missing" 400]
  else if res.err.isSome then
    [Effect.cookieDelete "state", Effect.httpError "invalid state cookie" 400]
  else
    Effect.cookieDelete "state" :: callbackAfterDelete op env r res.value

/-- Lines 245 to 264 of `ServeHTTP`: renew an invalid token, then hand the
request to `next` with `session` in its context.  `n` counts the renewals
already made. -/
def serveAuthorized (op : OIDCProxyHandler) (env : Env) (r : Request) (n : Nat)
    (session : Session) : List Effect :=
  if !Token.Valid session.OAuth2Tokens env.now then
    let res := refreshToken op env n session
    match res.2 with
    | Except.error _ => res.1 ++ RedirectToLogin op r
    | Except.ok newSession =>
      res.1 ++ Effect.cookieSetSession op.sessionCookieName newSession ::
        (match env.cookieSetSession r op.sessionCookieName newSession with
         | some _ => [Effect.httpError "Internal Server Error" 500]
         | none => [Effect.next (some session)])
  else [Effect.next (some session)]

/-- Method `OIDCProxyHandler.ServeHTTP`. -/
def ServeHTTP (op : OIDCProxyHandler) (env : Env) (r : Request) : List Effect :=
  let session := getSession op env r
  if op.debugPath != "" && r.URL.Path = op.debugPath then
    [Effect.infoHandler session]
  else if r.URL.Path = op.config.LogoutPath then LogoutHandler op env r
  else if r.URL.Path = op.loginPath then LoginHandler op env r
  else if r.URL.Path = op.callbackPath then CallbackHandler op env r
  else
    match session with
    | none => RedirectToLogin op r
    | some session =>
      if r.URL.Path = "/refresh" then
        let res := refreshToken op env 0 session
        match res.2 with
        | Except.error err => res.1 ++ [Effect.httpError err 500]
        | Except.ok newSession =>
          res.1 ++ Effect.cookieSetSession op.sessionCookieName newSession ::
            (match env.cookieSetSession r op.sessionCookieName newSession with
             | some _ => [Effect.httpError "Internal Server Error" 500]
             | none => serveAuthorized op env r 1 newSession)
      else serveAuthorized op env r 0 session

/-! ## A concrete deployment

One pure OAuth2 provider `acme`, the paths of `cmd.go`, and collaborators that
answer with fixed values. -/

def acmeConfig : Provider :=
  { Name := "", IssuerURL := "", ClientID := "proxy", ClientSecret := "s3cret",
    Scopes := ["openid"], AuthorizationParameter := [], TokenParameters := [],
    AuthorizationEndpoint := "https://idp.example/authorize",
    TokenEndpoint := "https://idp.example/token",
    IntrospectionEndpoint := "", UserinfoEndpoint := "",
    EndSessionEndpoint := "", RevocationEndpoint := "" }

def acme : provider :=
  { config := acmeConfig, oidcProvider := none,
    oauth2Config :=
      { ClientID := "proxy", ClientSecret := "s3cret",
        AuthURL := "https://idp.example/authorize", TokenURL := "https://idp.example/token",
        RedirectURL := "https://proxy.example/oauth2/callback", Scopes := ["openid"] } }

/-- Handler as `NewOIDCProxyHandler` builds it for the callback URL
`https://proxy.example/oauth2/callback` and the paths set in `cmd.go`. -/
def acmeHandler : OIDCProxyHandler :=
  { providers := [("acme", acme)],
    config := { CallbackURL := "https://proxy.example/oauth2/callback",
                LoginPath := "/login", LogoutPath := "/logout", DebugPath := "/debug" },
    loginPath := "/login", callbackPath := "/oauth2/callback", debugPath := "/debug",
    sessionCookieName := "oprox" }

/-- Access token valid until time 5000. -/
def freshToken : Token :=
  { AccessToken := "at-new", TokenType := "Bearer", RefreshToken := "rt-new",
    Expiry := some 5000, ExtraIDToken := none }

/-- Access token that expired at time 500. -/
def staleToken : Token :=
  { AccessToken := "at-old", TokenType := "Bearer", RefreshToken := "rt-old",
    Expiry := some 500, ExtraIDToken := none }

def freshSession : Session :=
  { Provider := "acme", OAuth2Tokens := some freshToken, IDToken := "" }

def staleSession : Session :=
  { Provider := "acme", OAuth2Tokens := some staleToken, IDToken := "" }

/-- Session without a refresh token whose access token is valid. -/
def plainSession : Session :=
  { Provider := "acme",
    OAuth2Tokens := some { freshToken with RefreshToken := "" }, IDToken := "" }

def emptySession : Session := { Provider := "", OAuth2Tokens := none, IDToken := "" }

def emptyLoginState : loginState := { State := "", URI := "", Provider := "" }

/-- Login state stored for provider `acme` with the state `c3RhdGU` and an
empty origin. -/
def acmeLoginState : loginState := { State := "c3RhdGU", URI := "", Provider := "acme" }

/-- Configuration of an OIDC provider that sets its token endpoint
explicitly and leaves the other endpoints to discovery. -/
def issuerConfig : Provider :=
  { acmeConfig with
    IssuerURL := "https://idp.example", AuthorizationEndpoint := "",
    TokenEndpoint := "https://proxy.example/token-proxy" }

/-- Endpoints published in the discovery document of `https://idp.example`. -/
def discoveredEndpoints : Endpoints :=
  { AuthorizationEndpoint := "https://idp.example/authorize",
    TokenEndpoint := "https://idp.example/token",
    IntrospectionEndpoint := "", UserinfoEndpoint := "https://idp.example/userinfo",
    EndSessionEndpoint := "https://idp.example/logout", RevocationEndpoint := "" }

/-- Value of the cookie `name` in a request, if it has one. -/
def cookieValue : List (String × String) → String → Option String
  | [], _ => none
  | (k, v) :: rest, name => if k = name then some v else cookieValue rest name

/-- Codec of the concrete deployment for session cookies: the cookie values
`fresh`, `stale` and `plain` decode to the sessions of these names, any other
value fails verification, a missing cookie is reported as not found. -/
def acmeGetSession (r : Request) (name : String) : GetResult Session :=
  match cookieValue r.Cookies name with
  | none => { ok := false, err := none, value := emptySession }
  | some v =>
    if v = "fresh" then { ok := true, err := none, value := freshSession }
    else if v = "stale" then { ok := true, err := none, value := staleSession }
    else if v = "plain" then { ok := true, err := none, value := plainSession }
    else { ok := true, err := some "securecookie: the value is not valid",
           value := emptySession }

/-- Codec of the concrete deployment for the state cookie: the value `login`
decodes to `acmeLoginState`, any other value fails verification. -/
def acmeGetState (r : Request) (name : String) : GetResult loginState :=
  match cookieValue r.Cookies name with
  | none => { ok := false, err := none, value := emptyLoginState }
  | some v =>
    if v = "login" then { ok := true, err := none, value := acmeLoginState }
    else { ok := true, err := some "securecookie: the value is not valid",
           value := emptyLoginState }

/-- Authorization URL of the concrete deployment: the parameters
`oauth2.Config.AuthCodeURL` sends when no extra option is given. -/
def acmeAuthCodeURL (cfg : OAuth2Config) (state : String) (_opts : Values) : String :=
  cfg.AuthURL ++ "?client_id=" ++ QueryEscape cfg.ClientID
    ++ "&redirect_uri=" ++ QueryEscape cfg.RedirectURL
    ++ "&response_type=code&scope=" ++ QueryEscape (" ".intercalate cfg.Scopes)
    ++ "&state=" ++ QueryEscape state

/-- Collaborators at time 1000: the codec above, which stores every cookie
without error, the random state `c3RhdGU`, and a provider that answers every
exchange and renewal with `freshToken`. -/
def acmeEnv : Env :=
  { now := 1000,
    cookieGetSession := acmeGetSession,
    cookieGetState := acmeGetState,
    cookieSetSession := fun _ _ _ => none,
    cookieSetState := fun _ _ _ => none,
    randString := fun _ => Except.ok "c3RhdGU",
    authCodeURL := acmeAuthCodeURL,
    exchange := fun _ _ _ => Except.ok freshToken,
    tokenSource := fun _ _ _ => Except.ok freshToken,
    verify := fun _ _ => none,
    httpNewRequest := fun _ _ => none,
    httpDo := fun _ _ => Except.ok (200, "") }

/-- A `GET` request as the server delivers it: target `path?rawQuery` with a
plain ASCII path, the given cookies, form not parsed, no body. -/
def getRequest (path rawQuery : String) (cookies : List (String × String)) : Request :=
  { Method := "GET",
    URL := { Scheme := "", Opaque := "", Path := path, escapedPath := path,
             ForceQuery := false, RawQuery := rawQuery },
    Cookies := cookies, Form := none, bodyValues := [], multipartValues := [] }

/-- Request `GET /private?x=1` with a session cookie for `freshSession`. -/
def privateRequest : Request := getRequest "/private" "x=1" [("oprox", "fresh")]

/-- Request `GET /private` with a session cookie for `staleSession`. -/
def staleRequest : Request := getRequest "/private" "" [("oprox", "stale")]

/-- Request `GET /refresh` with a session cookie for `plainSession`. -/
def refreshRequest : Request := getRequest "/refresh" "" [("oprox", "plain")]

/-- Request `GET /oauth2/callback?state=c3RhdGU&code=abc` with the state cookie
of `acmeLoginState`. -/
def callbackRequest : Request :=
  getRequest "/oauth2/callback" "state=c3RhdGU&code=abc" [("state", "login")]

/-- Request `GET /oauth2/callback?state=forged&code=abc` with the state cookie
of `acmeLoginState`. -/
def forgedCallbackRequest : Request :=
  getRequest "/oauth2/callback" "state=forged&code=abc" [("state", "login")]

/-- Request `GET /login?provider=acme&origin_uri=/private` without cookies. -/
def loginRequest : Request := getRequest "/login" "provider=acme&origin_uri=/private" []

/-- Request `GET /login` without cookies. -/
def bareLoginRequest : Request := getRequest "/login" "" []

/-- Request `GET /a?b=1&c=2` without cookies. -/
def queryRequest : Request := getRequest "/a" "b=1&c=2" []

/-! ## Responses and the logout deployment -/

/-- Whether a recorded call is made on the response writer: headers, status
and body, and the cookie headers the codec sets or deletes. -/
def Effect.onWriter : Effect → Bool
  | Effect.headerAdd _ _ => true
  | Effect.write _ => true
  | Effect.httpError _ _ => true
  | Effect.httpRedirect _ _ => true
  | Effect.cookieSetSession _ _ => true
  | Effect.cookieSetState _ _ => true
  | Effect.cookieDelete _ => true
  | _ => false

/-- The response of a run: its calls on the response writer, in order. -/
def response (run : List Effect) : List Effect := run.filter Effect.onWriter

/-- Response of the logout flow after the cookie deletion, as the
specification words it: a 303 redirect to the end-session endpoint of the
session's provider, with `id_token_hint` when the session carries an identity
token, if that provider is registered and has such an endpoint, and the plain
confirmation `logged out` otherwise. -/
def specLogoutResponse (providers : List (String × provider)) (session : Option Session) :
    List Effect :=
  match session with
  | none => [Effect.write "logged out\n"]
  | some s =>
    match lookupProvider providers s.Provider with
    | none => [Effect.write "logged out\n"]
    | some p =>
      if p.config.EndSessionEndpoint = "" then [Effect.write "logged out\n"]
      else if s.IDToken = "" then
        [Effect.httpRedirect (p.config.EndSessionEndpoint ++ "?") 303]
      else
        [Effect.httpRedirect
          (p.config.EndSessionEndpoint ++ "?" ++ "id_token_hint=" ++ QueryEscape s.IDToken)
          303]

/-- Provider `acme` with a revocation and an end-session endpoint. -/
def corp : provider :=
  { acme with
    config := { acmeConfig with
      EndSessionEndpoint := "https://idp.example/logout",
      RevocationEndpoint := "https://idp.example/revoke" } }

/-- The concrete handler with `corp` registered under the name `acme`. -/
def corpHandler : OIDCProxyHandler := { acmeHandler with providers := [("acme", corp)] }

/-- Session of provider `acme` with an expired access token, a refresh token
and an identity token. -/
def hintSession : Session :=
  { Provider := "acme", OAuth2Tokens := some staleToken, IDToken := "eyJ.old.sig" }

/-- Codec that decodes the cookie value `hint` to `hintSession` and every
other value as `acmeGetSession` does. -/
def corpGetSession (r : Request) (name : String) : GetResult Session :=
  if cookieValue r.Cookies name = some "hint" then
    { ok := true, err := none, value := hintSession }
  else acmeGetSession r name

/-- Collaborators of `acmeEnv` with the codec `corpGetSession`; the revocation
endpoint answers 200. -/
def corpEnv : Env := { acmeEnv with cookieGetSession := corpGetSession }

/-- As `corpEnv`, the revocation request failing in transport. -/
def revocationDownEnv : Env :=
  { corpEnv with httpDo := fun _ _ => Except.error "connection refused" }

/-- As `corpEnv`, the revocation endpoint answering 503. -/
def revocationRejectedEnv : Env :=
  { corpEnv with httpDo := fun _ _ => Except.ok (503, "unavailable") }

/-- Request `GET /logout` with a session cookie for `hintSession`. -/
def logoutRequest : Request := getRequest "/logout" "" [("oprox", "hint")]

/-- Session of provider `acme` with an identity token and a nil
`OAuth2Tokens`. -/
def tokenlessSession : Session :=
  { Provider := "acme", OAuth2Tokens := none, IDToken := "eyJ.old.sig" }

/-- Codec that decodes the cookie value `bare` to `tokenlessSession` and every
other value as `corpGetSession` does. -/
def tokenlessGetSession (r : Request) (name : String) : GetResult Session :=
  if cookieValue r.Cookies name = some "bare" then
    { ok := true, err := none, value := tokenlessSession }
  else corpGetSession r name

/-- Collaborators of `corpEnv` with the codec `tokenlessGetSession`. -/
def tokenlessEnv : Env := { corpEnv with cookieGetSession := tokenlessGetSession }

/-- Request `GET /logout` with a session cookie for `tokenlessSession`. -/
def tokenlessLogoutRequest : Request := getRequest "/logout" "" [("oprox", "bare")]

/-! ## Theorems -/

set_option maxRecDepth 20000

/-! ### No call of `next` outside the authorised path -/

theorem next_not_mem_RedirectToLogin (op : OIDCProxyHandler) (r : Request)
    (ctx : Option Session) : Effect.next ctx ∉ RedirectToLogin op r := by
  unfold RedirectToLogin
  split <;> simp

theorem next_not_mem_refreshToken (op : OIDCProxyHandler) (env : Env) (n : Nat) (s : Session)
    (ctx : Option Session) : Effect.next ctx ∉ (refreshToken op env n s).1 := by
  unfold refreshToken
  repeat' (first | split | dsimp only)
  all_goals simp

theorem next_not_mem_LoginHandler (op : OIDCProxyHandler) (env : Env) (r : Request)
    (ctx : Option Session) : Effect.next ctx ∉ LoginHandler op env r := by
  unfold LoginHandler
  repeat' (first | split | dsimp only)
  all_goals simp

theorem next_not_mem_revokeToken (env : Env) (p : provider) (s : Session)
    (ctx : Option Session) : Effect.next ctx ∉ (revokeToken env p s).1 := by
  unfold revokeToken
  repeat' (first | split | dsimp only)
  all_goals simp

theorem next_not_mem_LogoutHandler (op : OIDCProxyHandler) (env : Env) (r : Request)
    (ctx : Option Session) : Effect.next ctx ∉ LogoutHandler op env r := by
  unfold LogoutHandler rpInitiatedLogout
  have hr := next_not_mem_revokeToken env
  repeat' (first | split | dsimp only)
  all_goals simp_all

theorem next_not_mem_callbackFinish (op : OIDCProxyHandler) (env : Env) (r : Request)
    (ls : loginState) (s : Session) (ctx : Option Session) :
    Effect.next ctx ∉ callbackFinish op env r ls s := by
  unfold callbackFinish
  split <;> simp

theorem next_not_mem_callbackAfterDelete (op : OIDCProxyHandler) (env : Env) (r : Request)
    (ls : loginState) (ctx : Option Session) :
    Effect.next ctx ∉ callbackAfterDelete op env r ls := by
  unfold callbackAfterDelete
  have hf := next_not_mem_callbackFinish op env r ls
  repeat' (first | split | dsimp only)
  all_goals simp [hf]

theorem next_not_mem_CallbackHandler (op : OIDCProxyHandler) (env : Env) (r : Request)
    (ctx : Option Session) : Effect.next ctx ∉ CallbackHandler op env r := by
  unfold CallbackHandler
  repeat' (first | split | dsimp only)
  all_goals simp [next_not_mem_callbackAfterDelete]

theorem next_mem_serveAuthorized (op : OIDCProxyHandler) (env : Env) (r : Request) (n : Nat)
    (s : Session) (ctx : Option Session) (h : Effect.next ctx ∈ serveAuthorized op env r n s) :
    ctx = some s ∧ (Token.Valid s.OAuth2Tokens env.now = true ∨
      ∃ ns, (refreshToken op env n s).2 = Except.ok ns) := by
  unfold serveAuthorized at h
  have h1 := next_not_mem_refreshToken op env n s ctx
  have h2 := next_not_mem_RedirectToLogin op r ctx
  split at h
  · dsimp only at h
    split at h
    · simp_all
    · split at h <;> simp_all
  · simp_all

theorem getSession_eq_some (op : OIDCProxyHandler) (env : Env) (r : Request) (s : Session)
    (h : getSession op env r = some s) :
    (env.cookieGetSession r op.sessionCookieName).ok = true ∧
    (env.cookieGetSession r op.sessionCookieName).err = none ∧
    (env.cookieGetSession r op.sessionCookieName).value = s := by
  unfold getSession at h
  dsimp only at h
  split at h
  · simp at h
  · split at h
    · simp at h
    · simp_all

/-! ### C1: the authentication gate -/

/-- C1. Whenever `ServeHTTP` calls the downstream handler `next`, the request
was not dispatched to the debug handler (a non-empty `debugPath` equal to the
request path), the request path is none of the logout, login and callback
paths, the codec found the session cookie and reported no error, `getSession`
resolved it to a session `s`, the access token of `s` was valid or
`refreshToken` succeeded for `s`, and the context handed to `next` carries a
session.  Hence a request whose cookie is absent or rejected by the codec never
reaches `next`. -/
theorem ServeHTTP_next_requires_session (op : OIDCProxyHandler) (env : Env) (r : Request)
    (ctx : Option Session) (h : Effect.next ctx ∈ ServeHTTP op env r) :
    ¬ (op.debugPath ≠ "" ∧ r.URL.Path = op.debugPath) ∧
    r.URL.Path ≠ op.config.LogoutPath ∧
    r.URL.Path ≠ op.loginPath ∧
    r.URL.Path ≠ op.callbackPath ∧
    (env.cookieGetSession r op.sessionCookieName).ok = true ∧
    (env.cookieGetSession r op.sessionCookieName).err = none ∧
    ∃ s, getSession op env r = some s ∧
      (Token.Valid s.OAuth2Tokens env.now = true ∨
        ∃ ns, (refreshToken op env 0 s).2 = Except.ok ns) ∧
      ∃ cs, ctx = some cs := by
  unfold ServeHTTP at h
  dsimp only at h
  split at h
  · simp at h
  · rename_i hdebug
    split at h
    · exact absurd h (next_not_mem_LogoutHandler op env r ctx)
    · rename_i hlogout
      split at h
      · exact absurd h (next_not_mem_LoginHandler op env r ctx)
      · rename_i hlogin
        split at h
        · exact absurd h (next_not_mem_CallbackHandler op env r ctx)
        · rename_i hcallback
          have hd : ¬ (op.debugPath ≠ "" ∧ r.URL.Path = op.debugPath) := by
            intro hc
            apply hdebug
            simp [hc.1, hc.2]
          split at h
          · exact absurd h (next_not_mem_RedirectToLogin op r ctx)
          · rename_i s hs
            have hcookie := getSession_eq_some op env r s hs
            refine ⟨hd, hlogout, hlogin, hcallback, hcookie.1, hcookie.2.1, s, hs, ?_⟩
            split at h
            · split at h
              · rename_i err herr
                have h1 := next_not_mem_refreshToken op env 0 s ctx
                simp_all
              · rename_i ns hns
                have h1 := next_not_mem_refreshToken op env 0 s ctx
                refine ⟨Or.inr ⟨ns, hns⟩, ?_⟩
                split at h
                · simp_all
                · have h2 : Effect.next ctx ∈ serveAuthorized op env r 1 ns := by
                    simp_all
                  exact ⟨ns, (next_mem_serveAuthorized op env r 1 ns ctx h2).1⟩
            · have h3 := next_mem_serveAuthorized op env r 0 s ctx h
              exact ⟨h3.2, s, h3.1⟩

theorem ServeHTTP_next_requires_session_witness :
    Effect.next (some freshSession) ∈ ServeHTTP acmeHandler acmeEnv privateRequest ∧
    (¬ (acmeHandler.debugPath ≠ "" ∧ privateRequest.URL.Path = acmeHandler.debugPath) ∧
    privateRequest.URL.Path ≠ acmeHandler.config.LogoutPath ∧
    privateRequest.URL.Path ≠ acmeHandler.loginPath ∧
    privateRequest.URL.Path ≠ acmeHandler.callbackPath ∧
    (acmeEnv.cookieGetSession privateRequest acmeHandler.sessionCookieName).ok = true ∧
    (acmeEnv.cookieGetSession privateRequest acmeHandler.sessionCookieName).err = none ∧
    ∃ s, getSession acmeHandler acmeEnv privateRequest = some s ∧
      (Token.Valid s.OAuth2Tokens acmeEnv.now = true ∨
        ∃ ns, (refreshToken acmeHandler acmeEnv 0 s).2 = Except.ok ns) ∧
      ∃ cs, some freshSession = some cs) :=
  ⟨by decide,
    ServeHTTP_next_requires_session acmeHandler acmeEnv privateRequest (some freshSession)
      (by decide)⟩

/-! ### C2: state mismatch -/

/-- C2. When the state cookie decodes to a `loginState` and the `state` request
parameter differs from its `State`, `CallbackHandler` deletes the state cookie
and answers with the error `state missmatch` (status 500) and nothing else: the
code exchange is not called and no session cookie is set. -/
theorem CallbackHandler_state_mismatch_rejected (op : OIDCProxyHandler) (env : Env)
    (r : Request)
    (hok : (env.cookieGetState r "state").ok = true)
    (herr : (env.cookieGetState r "state").err = none)
    (hne : r.FormValue "state" ≠ (env.cookieGetState r "state").value.State) :
    CallbackHandler op env r =
      [Effect.cookieDelete "state", Effect.httpError "state missmatch" 500] ∧
    (∀ cfg code opts, Effect.exchange cfg code opts ∉ CallbackHandler op env r) ∧
    (∀ name s, Effect.cookieSetSession name s ∉ CallbackHandler op env r) := by
  have hrun : CallbackHandler op env r =
      [Effect.cookieDelete "state", Effect.httpError "state missmatch" 500] := by
    unfold CallbackHandler callbackAfterDelete
    simp [hok, herr, hne]
  refine ⟨hrun, ?_, ?_⟩
  · intro cfg code opts
    rw [hrun]
    simp
  · intro name s
    rw [hrun]
    simp

theorem CallbackHandler_state_mismatch_rejected_witness :
    (acmeEnv.cookieGetState forgedCallbackRequest "state").ok = true ∧
    (acmeEnv.cookieGetState forgedCallbackRequest "state").err = none ∧
    forgedCallbackRequest.FormValue "state" ≠
      (acmeEnv.cookieGetState forgedCallbackRequest "state").value.State ∧
    (CallbackHandler acmeHandler acmeEnv forgedCallbackRequest =
      [Effect.cookieDelete "state", Effect.httpError "state missmatch" 500] ∧
    (∀ cfg code opts,
      Effect.exchange cfg code opts ∉ CallbackHandler acmeHandler acmeEnv forgedCallbackRequest) ∧
    (∀ name s,
      Effect.cookieSetSession name s ∉
        CallbackHandler acmeHandler acmeEnv forgedCallbackRequest)) :=
  ⟨by decide, by decide, by decide,
    CallbackHandler_state_mismatch_rejected acmeHandler acmeEnv forgedCallbackRequest
      (by decide) (by decide) (by decide)⟩

/-! ### C3: a valid session is forwarded -/

/-- C3, as amended.  On a protected path other than `/refresh`, when the
session cookie resolves to a session whose access token is valid, the whole run
of `ServeHTTP` is one call of `next` with exactly that session in the context:
`refreshToken` is not called and no error is written. -/
theorem ServeHTTP_valid_session_forwarded (op : OIDCProxyHandler) (env : Env) (r : Request)
    (s : Session)
    (hdebug : ¬ (op.debugPath ≠ "" ∧ r.URL.Path = op.debugPath))
    (hlogout : r.URL.Path ≠ op.config.LogoutPath)
    (hlogin : r.URL.Path ≠ op.loginPath)
    (hcallback : r.URL.Path ≠ op.callbackPath)
    (hrefresh : r.URL.Path ≠ "/refresh")
    (hs : getSession op env r = some s)
    (hvalid : Token.Valid s.OAuth2Tokens env.now = true) :
    ServeHTTP op env r = [Effect.next (some s)] := by
  have hd : (op.debugPath != "" && decide (r.URL.Path = op.debugPath)) = false := by
    by_cases h1 : op.debugPath = ""
    · simp [h1]
    · by_cases h2 : r.URL.Path = op.debugPath
      · exact absurd ⟨h1, h2⟩ hdebug
      · simp [h2]
  unfold ServeHTTP
  simp [hd, hlogout, hlogin, hcallback, hrefresh, hs, serveAuthorized, hvalid]

theorem ServeHTTP_valid_session_forwarded_witness :
    ¬ (acmeHandler.debugPath ≠ "" ∧ privateRequest.URL.Path = acmeHandler.debugPath) ∧
    privateRequest.URL.Path ≠ acmeHandler.config.LogoutPath ∧
    privateRequest.URL.Path ≠ acmeHandler.loginPath ∧
    privateRequest.URL.Path ≠ acmeHandler.callbackPath ∧
    privateRequest.URL.Path ≠ "/refresh" ∧
    getSession acmeHandler acmeEnv privateRequest = some freshSession ∧
    Token.Valid freshSession.OAuth2Tokens acmeEnv.now = true ∧
    ServeHTTP acmeHandler acmeEnv privateRequest = [Effect.next (some freshSession)] :=
  ⟨by decide, by decide, by decide, by decide, by decide, by decide, by decide,
    ServeHTTP_valid_session_forwarded acmeHandler acmeEnv privateRequest freshSession
      (by decide) (by decide) (by decide) (by decide) (by decide) (by decide) (by decide)⟩

/-- C3 as stated fails on the protected path `/refresh`: the session cookie
resolves to `plainSession`, whose access token is valid, yet `ServeHTTP` calls
`refreshToken`, writes an error with status 500 and does not call `next`. -/
theorem ServeHTTP_refresh_path_not_forwarded :
    ¬ (acmeHandler.debugPath ≠ "" ∧ refreshRequest.URL.Path = acmeHandler.debugPath) ∧
    refreshRequest.URL.Path ≠ acmeHandler.config.LogoutPath ∧
    refreshRequest.URL.Path ≠ acmeHandler.loginPath ∧
    refreshRequest.URL.Path ≠ acmeHandler.callbackPath ∧
    getSession acmeHandler acmeEnv refreshRequest = some plainSession ∧
    Token.Valid plainSession.OAuth2Tokens acmeEnv.now = true ∧
    ServeHTTP acmeHandler acmeEnv refreshRequest =
      [Effect.refreshToken plainSession,
       Effect.httpError "token expired or missing and no refresh token available" 500] ∧
    Effect.next (some plainSession) ∉ ServeHTTP acmeHandler acmeEnv refreshRequest := by
  decide

/-! ### C4: the session handed on after a renewal -/

/-- C4 at a failing input.  `GET /private` with a session whose access token
expired: `refreshToken` succeeds with `freshSession`, the session cookie is
re-issued with `freshSession`, and the context handed to `next` carries the
stale `staleSession` read from the cookie, which differs from the renewed
one. -/
theorem ServeHTTP_renewal_hands_on_stale_session :
    getSession acmeHandler acmeEnv staleRequest = some staleSession ∧
    Token.Valid staleSession.OAuth2Tokens acmeEnv.now = false ∧
    (refreshToken acmeHandler acmeEnv 0 staleSession).2 = Except.ok freshSession ∧
    ServeHTTP acmeHandler acmeEnv staleRequest =
      [Effect.refreshToken staleSession,
       Effect.tokenSource acme.oauth2Config
         { AccessToken := "", TokenType := "", RefreshToken := "rt-old", Expiry := none,
           ExtraIDToken := none },
       Effect.cookieSetSession "oprox" freshSession,
       Effect.next (some staleSession)] ∧
    staleSession ≠ freshSession :=
  ⟨by decide, by decide, rfl, by decide, by decide⟩

/-! ### C5: the redirect after a successful callback -/

/-- C5 at a failing input.  A successful callback on `/oauth2/callback` whose
`loginState` has an empty `URI`: `CallbackHandler` passes the empty
`loginState.URI` to `http.Redirect`, not `/`, and the `Location` computed from
it is the directory of the callback path, `/oauth2/`. -/
theorem CallbackHandler_empty_origin_redirect :
    (acmeEnv.cookieGetState callbackRequest "state").value.URI = "" ∧
    CallbackHandler acmeHandler acmeEnv callbackRequest =
      [Effect.cookieDelete "state",
       Effect.exchange acme.oauth2Config "abc" [],
       Effect.cookieSetSession "oprox" freshSession,
       Effect.httpRedirect "" 303] ∧
    redirectLocation callbackRequest.URL.Path "" = "/oauth2/" ∧
    redirectLocation callbackRequest.URL.Path "" ≠ "/" := by
  decide

/-! ### C6: the login state persisted by the login handler -/

/-- C6 at a failing input.  `GET /login?provider=acme&origin_uri=/private`, as
the server delivers it (form not parsed): the query carries
`origin_uri=/private`, and the `loginState` that `LoginHandler` persists has
provider `acme`, the generated state, and an empty `URI`. -/
theorem LoginHandler_persists_empty_origin :
    Values.Get loginRequest.URL.Query "provider" = "acme" ∧
    Values.Get loginRequest.URL.Query "origin_uri" = "/private" ∧
    LoginHandler acmeHandler acmeEnv loginRequest =
      [Effect.cookieSetState "state" { State := "c3RhdGU", URI := "", Provider := "acme" },
       Effect.httpRedirect
         ("https://idp.example/authorize?client_id=proxy"
           ++ "&redirect_uri=https%3A%2F%2Fproxy.example%2Foauth2%2Fcallback"
           ++ "&response_type=code&scope=openid&state=c3RhdGU") 303] ∧
    ServeHTTP acmeHandler acmeEnv loginRequest =
      LoginHandler acmeHandler acmeEnv loginRequest := by
  decide

/-! ### C7: the origin carried by the redirect to login -/

/-- C7 at a failing input.  `GET /a?b=1&c=2` without a session is answered by a
303 redirect whose `Location` is `/login?origin_uri=/a?b=1&c=2`; its path is
the login path, and the `origin_uri` parameter decoded from its query is
`/a?b=1`, not the request URI `/a?b=1&c=2`. -/
theorem RedirectToLogin_origin_truncated :
    queryRequest.URL.RequestURI = "/a?b=1&c=2" ∧
    ServeHTTP acmeHandler acmeEnv queryRequest =
      [Effect.httpRedirect "/login?origin_uri=/a?b=1&c=2" 303] ∧
    redirectLocation queryRequest.URL.Path "/login?origin_uri=/a?b=1&c=2" =
      "/login?origin_uri=/a?b=1&c=2" ∧
    parseRequestTarget "/login?origin_uri=/a?b=1&c=2" =
      some ("/login", "origin_uri=/a?b=1&c=2") ∧
    Values.Get (ParseQuery "origin_uri=/a?b=1&c=2") "origin_uri" = "/a?b=1" ∧
    Values.Get (ParseQuery "origin_uri=/a?b=1&c=2") "origin_uri" ≠
      queryRequest.URL.RequestURI := by
  decide

/-! ### C8: the state cookie is consumed first -/

/-- C8. Whenever the codec finds a state cookie in the request, valid or not,
the first call `CallbackHandler` makes is the deletion of the state cookie; what
follows is either the `invalid state cookie` error or the rest of the flow
(state comparison, provider error, provider lookup, code exchange, identity
token check, session cookie, redirect), so the deletion precedes each of these
steps whatever their outcome. -/
theorem CallbackHandler_deletes_state_cookie_first (op : OIDCProxyHandler) (env : Env)
    (r : Request) (hok : (env.cookieGetState r "state").ok = true) :
    CallbackHandler op env r =
      Effect.cookieDelete "state" ::
        (if (env.cookieGetState r "state").err.isSome then
          [Effect.httpError "invalid state cookie" 400]
         else callbackAfterDelete op env r (env.cookieGetState r "state").value) ∧
    (CallbackHandler op env r).head? = some (Effect.cookieDelete "state") := by
  have hrun : CallbackHandler op env r =
      Effect.cookieDelete "state" ::
        (if (env.cookieGetState r "state").err.isSome then
          [Effect.httpError "invalid state cookie" 400]
         else callbackAfterDelete op env r (env.cookieGetState r "state").value) := by
    unfold CallbackHandler
    by_cases herr : (env.cookieGetState r "state").err.isSome = true <;> simp [hok, herr]
  exact ⟨hrun, by rw [hrun]; rfl⟩

theorem CallbackHandler_deletes_state_cookie_first_witness :
    (acmeEnv.cookieGetState callbackRequest "state").ok = true ∧
    (CallbackHandler acmeHandler acmeEnv callbackRequest =
      Effect.cookieDelete "state" ::
        (if (acmeEnv.cookieGetState callbackRequest "state").err.isSome then
          [Effect.httpError "invalid state cookie" 400]
         else callbackAfterDelete acmeHandler acmeEnv callbackRequest
           (acmeEnv.cookieGetState callbackRequest "state").value) ∧
    (CallbackHandler acmeHandler acmeEnv callbackRequest).head? =
      some (Effect.cookieDelete "state")) :=
  ⟨by decide,
    CallbackHandler_deletes_state_cookie_first acmeHandler acmeEnv callbackRequest
      (by decide)⟩

/-! ### C9: the links of the provider selection page -/

/-- C9 at a failing input.  `GET /login` without a query string: the page
links provider `acme` to `/login&provider=acme`.  Parsed as a request target
this has the path `/login&provider=acme`, not the login path, and no
`provider` parameter, and a request for it is not dispatched to `LoginHandler`
but redirected to the login page. -/
theorem LoginHandler_link_without_query :
    LoginHandler acmeHandler acmeEnv bareLoginRequest =
      [Effect.headerAdd "Content-Type" "text/html",
       Effect.headerAdd "Cache-Control" "no-cache",
       Effect.write "<h1>select login provider</h1>\n",
       Effect.write "<div><a href=\"/login&provider=acme\">acme</a></div>"] ∧
    providerLink bareLoginRequest "acme" = "/login&provider=acme" ∧
    parseRequestTarget (providerLink bareLoginRequest "acme") =
      some ("/login&provider=acme", "") ∧
    "/login&provider=acme" ≠ acmeHandler.loginPath ∧
    Values.Get (ParseQuery "") "provider" = "" ∧
    ServeHTTP acmeHandler acmeEnv (getRequest "/login&provider=acme" "" []) =
      [Effect.httpRedirect "/login?origin_uri=/login&provider=acme" 303] := by
  decide

/-! ### C10: merging endpoints -/

theorem Merge_keeps_nonempty (e e2 : Endpoints) :
    (e.AuthorizationEndpoint = "" ∨
      (e.Merge e2).AuthorizationEndpoint = e.AuthorizationEndpoint) ∧
    (e.TokenEndpoint = "" ∨ (e.Merge e2).TokenEndpoint = e.TokenEndpoint) ∧
    (e.IntrospectionEndpoint = "" ∨
      (e.Merge e2).IntrospectionEndpoint = e.IntrospectionEndpoint) ∧
    (e.UserinfoEndpoint = "" ∨ (e.Merge e2).UserinfoEndpoint = e.UserinfoEndpoint) ∧
    (e.EndSessionEndpoint = "" ∨ (e.Merge e2).EndSessionEndpoint = e.EndSessionEndpoint) ∧
    (e.RevocationEndpoint = "" ∨ (e.Merge e2).RevocationEndpoint = e.RevocationEndpoint) := by
  obtain ⟨a, t, i, u, s, v⟩ := e
  unfold Endpoints.Merge
  dsimp only
  refine ⟨?_, ?_, ?_, ?_, ?_, ?_⟩
  all_goals
    by_cases ha : a = "" <;> by_cases ht : t = "" <;> by_cases hi : i = "" <;>
    by_cases hu : u = "" <;> by_cases hs : s = "" <;> by_cases hv : v = "" <;>
    simp [ha, ht, hi, hu, hs, hv]

/-- The provider loop on `issuerConfig`: the entry is built, its token endpoint
is the configured one, the endpoints left empty are the discovered ones. -/
theorem newProvider_keeps_configured_token_endpoint :
    (newProvider "https://proxy.example/oauth2/callback" (fun _ => none)
      (fun _ => Except.ok discoveredEndpoints) issuerConfig).toOption.map
        (fun p => (p.config.TokenEndpoint, p.config.AuthorizationEndpoint,
          p.config.EndSessionEndpoint, p.oauth2Config.TokenURL)) =
      some ("https://proxy.example/token-proxy", "https://idp.example/authorize",
        "https://idp.example/logout", "https://proxy.example/token-proxy") := by
  decide

theorem newProvider_endpoints (callbackURL : String)
    (oidcNewProvider : String → Option String) (claims : String → Except String Endpoints)
    (cfg : Provider) (p : provider)
    (h : newProvider callbackURL oidcNewProvider claims cfg = Except.ok p) :
    p.config.toEndpoints = cfg.toEndpoints ∨
      ∃ d, p.config.toEndpoints = cfg.toEndpoints.Merge d := by
  unfold newProvider at h
  split at h
  · simp at h
  · dsimp only at h
    split at h
    · simp at h
    · rename_i config oidc hd
      split at h
      · simp at h
      · split at h
        · simp at h
        · injection h with h
          subst h
          dsimp only
          split at hd
          · split at hd
            · simp at hd
            · split at hd
              · simp at hd
              · rename_i endpoints _
                injection hd with hd
                injection hd with hd1 hd2
                subst hd1
                refine Or.inr ⟨endpoints, ?_⟩
                simp
          · injection hd with hd
            injection hd with hd1 hd2
            subst hd1
            left
            simp

/-- C10. After `e.Merge(e2)` each of the six endpoint fields holds the value `e`
had when that was non-empty and the value of `e2` otherwise, and merging the
same `e2` once more changes nothing.  In the provider loop of
`NewOIDCProxyHandler`, which merges the discovered endpoints into the
configured ones, every registry entry built keeps each configured non-empty
endpoint. -/
theorem Endpoints_Merge_first_nonempty_wins (e e2 : Endpoints) (callbackURL : String)
    (oidcNewProvider : String → Option String) (claims : String → Except String Endpoints)
    (cfg : Provider) :
    (e.Merge e2).AuthorizationEndpoint =
      (if e.AuthorizationEndpoint = "" then e2.AuthorizationEndpoint
       else e.AuthorizationEndpoint) ∧
    (e.Merge e2).TokenEndpoint =
      (if e.TokenEndpoint = "" then e2.TokenEndpoint else e.TokenEndpoint) ∧
    (e.Merge e2).IntrospectionEndpoint =
      (if e.IntrospectionEndpoint = "" then e2.IntrospectionEndpoint
       else e.IntrospectionEndpoint) ∧
    (e.Merge e2).UserinfoEndpoint =
      (if e.UserinfoEndpoint = "" then e2.UserinfoEndpoint else e.UserinfoEndpoint) ∧
    (e.Merge e2).EndSessionEndpoint =
      (if e.EndSessionEndpoint = "" then e2.EndSessionEndpoint else e.EndSessionEndpoint) ∧
    (e.Merge e2).RevocationEndpoint =
      (if e.RevocationEndpoint = "" then e2.RevocationEndpoint else e.RevocationEndpoint) ∧
    (e.Merge e2).Merge e2 = e.Merge e2 ∧
    (match newProvider callbackURL oidcNewProvider claims cfg with
     | Except.error _ => True
     | Except.ok p =>
       (cfg.AuthorizationEndpoint = "" ∨
         p.config.AuthorizationEndpoint = cfg.AuthorizationEndpoint) ∧
       (cfg.TokenEndpoint = "" ∨ p.config.TokenEndpoint = cfg.TokenEndpoint) ∧
       (cfg.IntrospectionEndpoint = "" ∨
         p.config.IntrospectionEndpoint = cfg.IntrospectionEndpoint) ∧
       (cfg.UserinfoEndpoint = "" ∨ p.config.UserinfoEndpoint = cfg.UserinfoEndpoint) ∧
       (cfg.EndSessionEndpoint = "" ∨
         p.config.EndSessionEndpoint = cfg.EndSessionEndpoint) ∧
       (cfg.RevocationEndpoint = "" ∨
         p.config.RevocationEndpoint = cfg.RevocationEndpoint)) := by
  refine ⟨?_, ?_, ?_, ?_, ?_, ?_, ?_, ?_⟩
  case refine_8 =>
    cases hp : newProvider callbackURL oidcNewProvider claims cfg with
    | error _ => trivial
    | ok p =>
      dsimp only
      rcases newProvider_endpoints callbackURL oidcNewProvider claims cfg p hp with h | ⟨d, h⟩
      · rw [h]
        simp
      · have hk := Merge_keeps_nonempty cfg.toEndpoints d
        rw [← h] at hk
        exact hk
  all_goals
    obtain ⟨a, t, i, u, s, v⟩ := e
    obtain ⟨a2, t2, i2, u2, s2, v2⟩ := e2
    unfold Endpoints.Merge
    dsimp only
    by_cases ha : a = "" <;> by_cases ht : t = "" <;> by_cases hi : i = "" <;>
    by_cases hu : u = "" <;> by_cases hs : s = "" <;> by_cases hv : v = "" <;>
    simp [ha, ht, hi, hu, hs, hv]

/-! ### C11: the session built by a renewal -/

/-- C11. For a session `s` carrying a non-empty refresh token and a registered
provider, when the renewal request succeeds with `newToken`, `refreshToken`
returns a new session whose `Provider` is `s.Provider`, whose tokens are
`newToken`, and whose `IDToken` is the `id_token` of the renewal response when
it has one and `s.IDToken` otherwise.  The session `s` is only read: the run
consists of the entry into `refreshToken` and one renewal request, which is
handed a new token holding nothing but the refresh token of `s`. -/
theorem refreshToken_builds_renewed_session (op : OIDCProxyHandler) (env : Env) (n : Nat)
    (s : Session) (tokens : Token) (p : provider) (newToken : Token)
    (htokens : s.OAuth2Tokens = some tokens)
    (hrefresh : tokens.RefreshToken ≠ "")
    (hprovider : lookupProvider op.providers s.Provider = some p)
    (hrenew : env.tokenSource n p.oauth2Config
      { AccessToken := "", TokenType := "", RefreshToken := tokens.RefreshToken,
        Expiry := none, ExtraIDToken := none } = Except.ok newToken) :
    (refreshToken op env n s).2 =
      Except.ok
        { Provider := s.Provider, OAuth2Tokens := some newToken,
          IDToken :=
            match newToken.ExtraIDToken with
            | some idToken => idToken
            | none => s.IDToken } ∧
    (refreshToken op env n s).1 =
      [Effect.refreshToken s,
       Effect.tokenSource p.oauth2Config
         { AccessToken := "", TokenType := "", RefreshToken := tokens.RefreshToken,
           Expiry := none, ExtraIDToken := none }] := by
  unfold refreshToken
  simp [htokens, hrefresh, hprovider, hrenew]

theorem refreshToken_builds_renewed_session_witness :
    hintSession.OAuth2Tokens = some staleToken ∧
    staleToken.RefreshToken ≠ "" ∧
    lookupProvider corpHandler.providers hintSession.Provider = some corp ∧
    ((refreshToken corpHandler corpEnv 0 hintSession).2 =
      Except.ok
        { Provider := hintSession.Provider, OAuth2Tokens := some freshToken,
          IDToken :=
            match freshToken.ExtraIDToken with
            | some idToken => idToken
            | none => hintSession.IDToken } ∧
    (refreshToken corpHandler corpEnv 0 hintSession).1 =
      [Effect.refreshToken hintSession,
       Effect.tokenSource corp.oauth2Config
         { AccessToken := "", TokenType := "", RefreshToken := staleToken.RefreshToken,
           Expiry := none, ExtraIDToken := none }]) :=
  ⟨by decide, by decide, by decide,
    refreshToken_builds_renewed_session corpHandler corpEnv 0 hintSession staleToken corp
      freshToken (by decide) (by decide) (by decide) rfl⟩

/-! ### C12: logout does not depend on the revocation outcome -/

theorem hint_query_append (x : String) :
    "?" ++ ("id_token_hint=" ++ x) = "?id_token_hint=" ++ x := by
  rw [← String.append_assoc]
  rfl

theorem revokeToken_no_response (env : Env) (p : provider) (s : Session) (tokens : Token)
    (htokens : s.OAuth2Tokens = some tokens) :
    response (revokeToken env p s).1 = [] ∧ (revokeToken env p s).2 ≠ none := by
  unfold revokeToken response
  simp only [htokens]
  repeat' (first | split | dsimp only)
  all_goals simp [Effect.onWriter]

theorem getSession_httpDo_irrelevant (op : OIDCProxyHandler) (env : Env) (r : Request)
    (newRequest : String → String → Option String)
    (httpDo : String → Values → Except String (Nat × String)) :
    getSession op { env with httpNewRequest := newRequest, httpDo := httpDo } r =
      getSession op env r := rfl

theorem LogoutHandler_response (op : OIDCProxyHandler) (env : Env) (r : Request)
    (htokens : ∀ s, getSession op env r = some s → s.OAuth2Tokens ≠ none) :
    response (LogoutHandler op env r) =
      Effect.cookieDelete op.sessionCookieName ::
        specLogoutResponse op.providers (getSession op env r) := by
  unfold LogoutHandler specLogoutResponse
  cases hs : getSession op env r with
  | none => simp [response, Effect.onWriter]
  | some s =>
    cases hp : lookupProvider op.providers s.Provider with
    | none => simp [hp, response, Effect.onWriter]
    | some p =>
      cases ht : s.OAuth2Tokens with
      | none => exact absurd ht (htokens s hs)
      | some tokens =>
        have hrev := revokeToken_no_response env p s tokens ht
        dsimp only
        by_cases hr : p.config.RevocationEndpoint = ""
        · by_cases he : p.config.EndSessionEndpoint = "" <;>
            by_cases hi : s.IDToken = "" <;>
            simp [hp, hr, he, hi, response, Effect.onWriter, rpInitiatedLogout,
              String.append_assoc, hint_query_append]
        · cases hout : (revokeToken env p s).2 with
          | none => exact absurd hout hrev.2
          | some out =>
            have h1 := hrev.1
            unfold response at h1
            by_cases he : p.config.EndSessionEndpoint = "" <;>
              by_cases hi : s.IDToken = "" <;>
              simp [hp, hr, he, hi, hout, h1, response, Effect.onWriter, rpInitiatedLogout,
                List.filter_append, String.append_assoc, hint_query_append]

/-- Without tokens in the session, `revokeToken` for a provider with a
revocation endpoint stops in a nil dereference before any request is made. -/
theorem revokeToken_without_tokens (env : Env) (p : provider) (s : Session)
    (hendpoint : p.config.RevocationEndpoint ≠ "") (htokens : s.OAuth2Tokens = none) :
    revokeToken env p s =
      ([Effect.goPanic "runtime error: invalid memory address or nil pointer dereference"], none) := by
  unfold revokeToken
  simp [hendpoint, htokens]

/-! Every session the handler stores carries tokens. -/

theorem refreshToken_ok_has_tokens (op : OIDCProxyHandler) (env : Env) (n : Nat)
    (s ns : Session) (h : (refreshToken op env n s).2 = Except.ok ns) :
    ns.OAuth2Tokens ≠ none := by
  unfold refreshToken at h
  repeat' (first | split at h | dsimp only at h)
  all_goals simp at h
  all_goals
    subst h
    simp

theorem stored_not_mem_refreshToken (op : OIDCProxyHandler) (env : Env) (n : Nat)
    (s : Session) (name : String) (ss : Session) :
    Effect.cookieSetSession name ss ∉ (refreshToken op env n s).1 := by
  unfold refreshToken
  repeat' (first | split | dsimp only)
  all_goals simp

theorem stored_not_mem_RedirectToLogin (op : OIDCProxyHandler) (r : Request)
    (name : String) (ss : Session) :
    Effect.cookieSetSession name ss ∉ RedirectToLogin op r := by
  unfold RedirectToLogin
  split <;> simp

theorem stored_not_mem_LoginHandler (op : OIDCProxyHandler) (env : Env) (r : Request)
    (name : String) (ss : Session) :
    Effect.cookieSetSession name ss ∉ LoginHandler op env r := by
  unfold LoginHandler
  repeat' (first | split | dsimp only)
  all_goals simp

theorem stored_not_mem_revokeToken (env : Env) (p : provider) (s : Session)
    (name : String) (ss : Session) :
    Effect.cookieSetSession name ss ∉ (revokeToken env p s).1 := by
  unfold revokeToken
  repeat' (first | split | dsimp only)
  all_goals simp

theorem stored_not_mem_LogoutHandler (op : OIDCProxyHandler) (env : Env) (r : Request)
    (name : String) (ss : Session) :
    Effect.cookieSetSession name ss ∉ LogoutHandler op env r := by
  unfold LogoutHandler rpInitiatedLogout
  have hr := stored_not_mem_revokeToken env
  repeat' (first | split | dsimp only)
  all_goals simp_all

theorem stored_mem_callbackFinish (op : OIDCProxyHandler) (env : Env) (r : Request)
    (ls : loginState) (s : Session) (name : String) (ss : Session)
    (h : Effect.cookieSetSession name ss ∈ callbackFinish op env r ls s) : ss = s := by
  unfold callbackFinish at h
  split at h <;> simp_all

theorem stored_mem_callbackAfterDelete (op : OIDCProxyHandler) (env : Env) (r : Request)
    (ls : loginState) (name : String) (ss : Session)
    (h : Effect.cookieSetSession name ss ∈ callbackAfterDelete op env r ls) :
    ss.OAuth2Tokens ≠ none := by
  unfold callbackAfterDelete at h
  repeat' (first | split at h | dsimp only at h)
  all_goals simp at h
  all_goals
    have hf := stored_mem_callbackFinish op env r ls _ name ss h
    subst hf
    simp

theorem stored_mem_CallbackHandler (op : OIDCProxyHandler) (env : Env) (r : Request)
    (name : String) (ss : Session)
    (h : Effect.cookieSetSession name ss ∈ CallbackHandler op env r) :
    ss.OAuth2Tokens ≠ none := by
  unfold CallbackHandler at h
  repeat' (first | split at h | dsimp only at h)
  all_goals simp at h
  exact stored_mem_callbackAfterDelete op env r _ name ss h

theorem stored_mem_serveAuthorized (op : OIDCProxyHandler) (env : Env) (r : Request)
    (n : Nat) (s : Session) (name : String) (ss : Session)
    (h : Effect.cookieSetSession name ss ∈ serveAuthorized op env r n s) :
    ss.OAuth2Tokens ≠ none := by
  unfold serveAuthorized at h
  have h1 := stored_not_mem_refreshToken op env n s name ss
  have h2 := stored_not_mem_RedirectToLogin op r name ss
  split at h
  · dsimp only at h
    split at h
    · simp_all
    · rename_i ns hns
      have h3 := refreshToken_ok_has_tokens op env n s ns hns
      split at h <;> simp_all
  · simp at h

/-- Every session that `ServeHTTP` hands to the cookie codec carries tokens. -/
theorem ServeHTTP_stores_sessions_with_tokens (op : OIDCProxyHandler) (env : Env)
    (r : Request) (name : String) (ss : Session)
    (h : Effect.cookieSetSession name ss ∈ ServeHTTP op env r) :
    ss.OAuth2Tokens ≠ none := by
  unfold ServeHTTP at h
  dsimp only at h
  split at h
  · simp at h
  · split at h
    · exact absurd h (stored_not_mem_LogoutHandler op env r name ss)
    · split at h
      · exact absurd h (stored_not_mem_LoginHandler op env r name ss)
      · split at h
        · exact stored_mem_CallbackHandler op env r name ss h
        · split at h
          · exact absurd h (stored_not_mem_RedirectToLogin op r name ss)
          · rename_i s hs
            split at h
            · have h1 := stored_not_mem_refreshToken op env 0 s name ss
              split at h
              · simp_all
              · rename_i ns hns
                have h3 := refreshToken_ok_has_tokens op env 0 s ns hns
                split at h
                · simp_all
                · simp only [List.mem_append, List.mem_cons] at h
                  rcases h with h | h | h
                  · exact absurd h h1
                  · injection h with _ hss
                    subst hss
                    exact h3
                  · exact stored_mem_serveAuthorized op env r 1 ns name ss h
            · exact stored_mem_serveAuthorized op env r 0 s name ss h

/-- For a session that carries tokens, the response of `LogoutHandler` is the
deletion of the session cookie followed by the response the specification
words, and it stays the same under every behaviour of the revocation request
(success, a status outside 200-399, a transport failure). -/
theorem LogoutHandler_with_tokens (op : OIDCProxyHandler) (env : Env) (r : Request)
    (htokens : ∀ s, getSession op env r = some s → s.OAuth2Tokens ≠ none) :
    (LogoutHandler op env r).head? = some (Effect.cookieDelete op.sessionCookieName) ∧
    response (LogoutHandler op env r) =
      Effect.cookieDelete op.sessionCookieName ::
        specLogoutResponse op.providers (getSession op env r) ∧
    ∀ (newRequest : String → String → Option String)
      (httpDo : String → Values → Except String (Nat × String)),
      response (LogoutHandler op
        { env with httpNewRequest := newRequest, httpDo := httpDo } r) =
        response (LogoutHandler op env r) := by
  refine ⟨by unfold LogoutHandler; rfl, LogoutHandler_response op env r htokens, ?_⟩
  intro newRequest httpDo
  rw [LogoutHandler_response op env r htokens,
    LogoutHandler_response op { env with httpNewRequest := newRequest, httpDo := httpDo } r
      (by rw [getSession_httpDo_irrelevant]; exact htokens),
    getSession_httpDo_irrelevant]

theorem logoutRequest_session :
    getSession corpHandler revocationDownEnv logoutRequest = some hintSession := by
  decide

theorem LogoutHandler_with_tokens_example :
    (∀ s, getSession corpHandler revocationDownEnv logoutRequest = some s →
      s.OAuth2Tokens ≠ none) ∧
    ((LogoutHandler corpHandler revocationDownEnv logoutRequest).head? =
      some (Effect.cookieDelete corpHandler.sessionCookieName) ∧
    response (LogoutHandler corpHandler revocationDownEnv logoutRequest) =
      Effect.cookieDelete corpHandler.sessionCookieName ::
        specLogoutResponse corpHandler.providers
          (getSession corpHandler revocationDownEnv logoutRequest) ∧
    ∀ (newRequest : String → String → Option String)
      (httpDo : String → Values → Except String (Nat × String)),
      response (LogoutHandler corpHandler
        { revocationDownEnv with httpNewRequest := newRequest, httpDo := httpDo }
        logoutRequest) =
        response (LogoutHandler corpHandler revocationDownEnv logoutRequest)) :=
  have htokens : ∀ s, getSession corpHandler revocationDownEnv logoutRequest = some s →
      s.OAuth2Tokens ≠ none := by
    intro s hs
    rw [logoutRequest_session] at hs
    injection hs with hs
    subst hs
    decide
  ⟨htokens, LogoutHandler_with_tokens corpHandler revocationDownEnv logoutRequest htokens⟩

/-- The logout of `hintSession` under the three outcomes of the revocation
request: the same revocation call is attempted and the same response is
written. -/
theorem LogoutHandler_revocation_outcomes :
    LogoutHandler corpHandler corpEnv logoutRequest =
      [Effect.cookieDelete "oprox",
       Effect.httpDo "https://idp.example/revoke"
         [("token", "rt-old"), ("client_id", "proxy"), ("client_secret", "s3cret")],
       Effect.httpRedirect "https://idp.example/logout?id_token_hint=eyJ.old.sig" 303] ∧
    LogoutHandler corpHandler revocationRejectedEnv logoutRequest =
      LogoutHandler corpHandler corpEnv logoutRequest ∧
    LogoutHandler corpHandler revocationDownEnv logoutRequest =
      LogoutHandler corpHandler corpEnv logoutRequest ∧
    ServeHTTP corpHandler revocationDownEnv logoutRequest =
      LogoutHandler corpHandler revocationDownEnv logoutRequest := by
  decide

/-- C12 at a failing input.  `GET /logout` with a session that has an identity
token and a nil `OAuth2Tokens`, its provider registered with a revocation and
an end-session endpoint: `LogoutHandler` deletes the session cookie and then
`revokeToken` dereferences the nil tokens, so the run ends in a panic and the
303 redirect to the end-session endpoint with `id_token_hint` is never
written. -/
theorem LogoutHandler_tokenless_session_panics :
    getSession corpHandler tokenlessEnv tokenlessLogoutRequest = some tokenlessSession ∧
    tokenlessSession.OAuth2Tokens = none ∧
    tokenlessSession.IDToken ≠ "" ∧
    lookupProvider corpHandler.providers tokenlessSession.Provider = some corp ∧
    corp.config.RevocationEndpoint = "https://idp.example/revoke" ∧
    corp.config.EndSessionEndpoint = "https://idp.example/logout" ∧
    LogoutHandler corpHandler tokenlessEnv tokenlessLogoutRequest =
      [Effect.cookieDelete "oprox",
       Effect.goPanic "runtime error: invalid memory address or nil pointer dereference"] ∧
    ServeHTTP corpHandler tokenlessEnv tokenlessLogoutRequest =
      LogoutHandler corpHandler tokenlessEnv tokenlessLogoutRequest ∧
    response (LogoutHandler corpHandler tokenlessEnv tokenlessLogoutRequest) =
      [Effect.cookieDelete "oprox"] ∧
    specLogoutResponse corpHandler.providers
      (getSession corpHandler tokenlessEnv tokenlessLogoutRequest) =
      [Effect.httpRedirect "https://idp.example/logout?id_token_hint=eyJ.old.sig" 303] ∧
    Effect.httpRedirect "https://idp.example/logout?id_token_hint=eyJ.old.sig" 303 ∉
      LogoutHandler corpHandler tokenlessEnv tokenlessLogoutRequest := by
  decide

end OidcProxy
